import Mathlib

/-!
Shallow embedding of `python_sdk/sandbox_sdk.py` (client SDK for a remote
sandbox execution service) and verification of its specification.

Conventions of the embedding:
* Python dictionaries are insertion-ordered association lists
  `List (String × PyVal)`; `dict.get` is `List.lookup` (keys are unique in
  any dict produced by the Python runtime).
* Python truthiness of the JSON-ish values that flow through the client is
  captured by `PyVal.truthy` (a string is truthy iff non-empty, a boolean
  iff `true`).
* Wall-clock readings (`time.time() * 1000`) are integer milliseconds
  supplied as an explicit `now` argument; durations measured by the
  transport are supplied by the transport outcome.
* Mutation is explicit state passing; a Python `raise` is `Except.error`,
  and a method that mutates before raising returns the mutated state
  together with the error.
-/

set_option autoImplicit false
set_option maxRecDepth 8000

namespace SandboxSDK

/-- A JSON-ish Python value as it appears in the payloads the client
inspects: recognized format values are strings, `is_main_result` is a
boolean. -/
inductive PyVal where
  | str (s : String)
  | boolean (b : Bool)
  deriving DecidableEq, Repr

/-- Python truthiness of a `PyVal`: a string is truthy iff non-empty. -/
def PyVal.truthy : PyVal → Bool
  | .str s => s ≠ ""
  | .boolean b => b

/-- Truthiness of an optional value (`None` is falsy). -/
def optTruthy : Option PyVal → Bool
  | none => false
  | some v => v.truthy

/-- A raw result payload: a Python dict, insertion-ordered. -/
abbrev RawData := List (String × PyVal)

/-- Models `raw_data.get(key)`. -/
def pyGet (raw : RawData) (key : String) : Option PyVal :=
  raw.lookup key

/-- The reserved keys excluded from `extra` in `Result.__init__`. -/
def reserved_keys : List String :=
  ["text", "html", "markdown", "svg", "png", "jpeg", "pdf", "latex",
   "json", "javascript", "data", "chart", "type", "is_main_result"]

/-- Models `Result` from code execution (class `Result`): one optional slot per
recognized representation plus the `extra` mapping of unrecognized keys. -/
structure Result where
  is_main_result : Bool
  raw : RawData
  text : Option PyVal
  html : Option PyVal
  markdown : Option PyVal
  svg : Option PyVal
  png : Option PyVal
  jpeg : Option PyVal
  pdf : Option PyVal
  latex : Option PyVal
  json : Option PyVal
  javascript : Option PyVal
  data : Option PyVal
  chart : Option PyVal
  extra : RawData
  deriving DecidableEq, Repr

/-- Models `Result.__init__(raw_data, is_main_result)`: extract the recognized
slots with `.get` and collect every non-reserved key into `extra`,
preserving insertion order. -/
def Result.ofRaw (raw_data : RawData) (is_main_result : Bool) : Result :=
  { is_main_result := is_main_result
    raw := raw_data
    text := pyGet raw_data "text"
    html := pyGet raw_data "html"
    markdown := pyGet raw_data "markdown"
    svg := pyGet raw_data "svg"
    png := pyGet raw_data "png"
    jpeg := pyGet raw_data "jpeg"
    pdf := pyGet raw_data "pdf"
    latex := pyGet raw_data "latex"
    json := pyGet raw_data "json"
    javascript := pyGet raw_data "javascript"
    data := pyGet raw_data "data"
    chart := pyGet raw_data "chart"
    extra := raw_data.filter (fun kv => !(reserved_keys.contains kv.1)) }

/-- Models `Result.formats()`: the chain of truthiness tests in source order,
then all keys of `extra`. -/
def Result.formats (r : Result) : List String :=
  (if optTruthy r.text then ["text"] else []) ++
  (if optTruthy r.html then ["html"] else []) ++
  (if optTruthy r.markdown then ["markdown"] else []) ++
  (if optTruthy r.svg then ["svg"] else []) ++
  (if optTruthy r.png then ["png"] else []) ++
  (if optTruthy r.jpeg then ["jpeg"] else []) ++
  (if optTruthy r.pdf then ["pdf"] else []) ++
  (if optTruthy r.latex then ["latex"] else []) ++
  (if optTruthy r.json then ["json"] else []) ++
  (if optTruthy r.javascript then ["javascript"] else []) ++
  (if optTruthy r.data then ["data"] else []) ++
  (if optTruthy r.chart then ["chart"] else []) ++
  r.extra.map Prod.fst

/-- The fixed recognized-format order named by the spec. -/
def knownFormatOrder : List String :=
  ["text", "html", "markdown", "svg", "png", "jpeg", "pdf", "latex",
   "json", "javascript", "data", "chart"]

/-- The recognized slot of a `Result` addressed by its format name
(used only to state the spec-side description of `formats`). -/
def Result.slot (r : Result) : String → Option PyVal
  | "text" => r.text
  | "html" => r.html
  | "markdown" => r.markdown
  | "svg" => r.svg
  | "png" => r.png
  | "jpeg" => r.jpeg
  | "pdf" => r.pdf
  | "latex" => r.latex
  | "json" => r.json
  | "javascript" => r.javascript
  | "data" => r.data
  | "chart" => r.chart
  | _ => none

/-- Spec-side description of `formats`: the truthy recognized formats in
the fixed order, then the keys of `extra` in insertion order. -/
def Result.formatsSpec (r : Result) : List String :=
  knownFormatOrder.filter (fun k => optTruthy (r.slot k)) ++ r.extra.map Prod.fst

/-- Models `ExecutionError` payload: `{name, value, traceback}`. -/
structure ExecErrorData where
  name : Option PyVal
  value : Option PyVal
  tb : Option PyVal
  deriving DecidableEq, Repr

/-- Models `Logs`: ordered stdout/stderr line sequences. -/
structure Logs where
  stdout : List String := []
  stderr : List String := []
  deriving DecidableEq, Repr

/-- Models `Execution`: ordered results, logs, optional error, optional counter. -/
structure Execution where
  results : List Result := []
  logs : Logs := {}
  error : Option ExecErrorData := none
  execution_count : Option Int := none
  deriving DecidableEq, Repr

/-- The loop body of `Execution.text`: return the `text` of the first
result with `result.is_main_result and result.text` truthy. -/
def firstMainText : List Result → Option PyVal
  | [] => none
  | r :: rest =>
      if r.is_main_result && optTruthy r.text then r.text else firstMainText rest

/-- Models `Execution.text` property accessor. -/
def Execution.text (e : Execution) : Option PyVal :=
  firstMainText e.results

/-- Spec-side description of `Execution.text`: the `text` of the first
element satisfying `is_main_result && text non-empty`, nothing if no such
element exists. -/
def Execution.textSpec (e : Execution) : Option PyVal :=
  match e.results.find? (fun r => r.is_main_result && optTruthy r.text) with
  | some r => r.text
  | none => none

/-! ## MetricsCollector -/

/-- Models `MetricsData` dataclass (the `last_updated` wall-clock field carries no
information the client ever reads back and is not modelled). -/
structure MetricsData where
  total_requests : Nat := 0
  successful_requests : Nat := 0
  failed_requests : Nat := 0
  average_response_time : ℚ := 0
  total_execution_time : ℚ := 0
  active_sandboxes : Nat := 0
  deriving DecidableEq, Repr

/-- Models `MetricsCollector`: the counters plus the trailing response-time
buffer. -/
structure MetricsCollector where
  metrics : MetricsData := {}
  response_times : List ℚ := []
  deriving DecidableEq, Repr

/-- Models `MetricsCollector._update_average_response_time`: early return on an
empty buffer, else the arithmetic mean. -/
def MetricsCollector._update_average_response_time (c : MetricsCollector) :
    MetricsCollector :=
  if c.response_times = [] then c
  else { c with metrics :=
          { c.metrics with average_response_time :=
              c.response_times.sum / (c.response_times.length : ℚ) } }

/-- Models `MetricsCollector.record_request(success, response_time)`: bump the
counters, append to the buffer, evict the oldest sample past 1000, then
recompute the average. -/
def MetricsCollector.record_request (c : MetricsCollector) (success : Bool)
    (response_time : ℚ) : MetricsCollector :=
  let m := { c.metrics with total_requests := c.metrics.total_requests + 1 }
  let m := if success
    then { m with successful_requests := m.successful_requests + 1 }
    else { m with failed_requests := m.failed_requests + 1 }
  let rts := c.response_times ++ [response_time]
  let rts := if rts.length > 1000 then rts.tail else rts
  MetricsCollector._update_average_response_time { metrics := m, response_times := rts }

/-- Models `MetricsCollector.record_execution(duration)`. -/
def MetricsCollector.record_execution (c : MetricsCollector) (duration : ℚ) :
    MetricsCollector :=
  { c with metrics :=
      { c.metrics with total_execution_time := c.metrics.total_execution_time + duration } }

/-- Models `MetricsCollector.update_active_sandboxes(count)`. -/
def MetricsCollector.update_active_sandboxes (c : MetricsCollector) (count : Nat) :
    MetricsCollector :=
  { c with metrics := { c.metrics with active_sandboxes := count } }

/-- Models `MetricsCollector.reset()`. -/
def MetricsCollector.reset (_c : MetricsCollector) : MetricsCollector :=
  { metrics := {}, response_times := [] }

/-- One call against a `MetricsCollector`, for stating interleaving
invariants. -/
inductive MetricsOp where
  | recordRequest (success : Bool) (response_time : ℚ)
  | recordExecution (duration : ℚ)
  | updateActiveSandboxes (count : Nat)
  | reset
  deriving DecidableEq, Repr

/-- Apply one `MetricsOp`. -/
def MetricsCollector.applyOp (c : MetricsCollector) : MetricsOp → MetricsCollector
  | .recordRequest s rt => c.record_request s rt
  | .recordExecution d => c.record_execution d
  | .updateActiveSandboxes n => c.update_active_sandboxes n
  | .reset => c.reset

/-- Apply a sequence of `MetricsOp`s in order. -/
def MetricsCollector.applyOps (c : MetricsCollector) : List MetricsOp → MetricsCollector
  | [] => c
  | op :: rest => (c.applyOp op).applyOps rest

/-- The response-time samples recorded by an op sequence since its last
`reset`, continuing from samples `acc` already pending. -/
def samplesAcc : List ℚ → List MetricsOp → List ℚ
  | acc, [] => acc
  | acc, .recordRequest _ rt :: rest => samplesAcc (acc ++ [rt]) rest
  | _acc, .reset :: rest => samplesAcc [] rest
  | acc, .recordExecution _ :: rest => samplesAcc acc rest
  | acc, .updateActiveSandboxes _ :: rest => samplesAcc acc rest

/-- The last `n` elements of a list. -/
def lastN {α : Type} (n : Nat) (l : List α) : List α :=
  l.drop (l.length - n)

/-! ## RateLimiter -/

/-- Models `RateLimiter`: timestamps (ms) of requests in the trailing window plus
the concurrent-jobs counter. -/
structure RateLimiter where
  max_requests_per_minute : Nat := 60
  request_timestamps : List Int := []
  concurrent_jobs : Nat := 0
  deriving DecidableEq, Repr

/-- Models `RateLimiter.can_make_request()`: discard timestamps at or older than
`now - 60000` (strict `ts > now - 60000` is kept) — this mutates the
stored list — then compare against the limit. Returns the answer and the
mutated limiter. -/
def RateLimiter.can_make_request (r : RateLimiter) (now : Int) :
    Bool × RateLimiter :=
  let one_minute_ago := now - 60000
  let kept := r.request_timestamps.filter (fun ts => ts > one_minute_ago)
  (kept.length < r.max_requests_per_minute, { r with request_timestamps := kept })

/-- Models `RateLimiter.record_request()`: append the current timestamp
unconditionally. -/
def RateLimiter.record_request (r : RateLimiter) (now : Int) : RateLimiter :=
  { r with request_timestamps := r.request_timestamps ++ [now] }

/-- Models `RateLimiter.get_retry_after()`: `60000 - (now - oldest)`, floored at
0; 0 when no timestamps are recorded. -/
def RateLimiter.get_retry_after (r : RateLimiter) (now : Int) : Int :=
  match r.request_timestamps with
  | [] => 0
  | oldest :: _ => max (60000 - (now - oldest)) 0

/-- Models `RateLimiter.increment_concurrent_jobs()`. -/
def RateLimiter.increment_concurrent_jobs (r : RateLimiter) : RateLimiter :=
  { r with concurrent_jobs := r.concurrent_jobs + 1 }

/-- Models `RateLimiter.decrement_concurrent_jobs()`: floored at 0. -/
def RateLimiter.decrement_concurrent_jobs (r : RateLimiter) : RateLimiter :=
  { r with concurrent_jobs := r.concurrent_jobs - 1 }

/-! ## Errors and transport -/

/-- The typed errors the client raises (`str(e)` of each is `message`).
`ConfigError` of the constructor is not modelled: every `SDKState` below
is post-construction. -/
inductive SDKError where
  | sandboxError (message : String)
  | timeoutError (message : String)
  | rateLimitError (retry_after : Int)
  | connectionError (message : String)
  | keyError (key : String)
  deriving DecidableEq, Repr

/-- Models `str(e)` for each error kind. -/
def SDKError.message : SDKError → String
  | .sandboxError m => m
  | .timeoutError m => m
  | .rateLimitError ra => "Rate limit exceeded. Retry after " ++ toString ra ++ "ms"
  | .connectionError m => m
  | .keyError k => "KeyError: " ++ k

/-- Python f-string rendering of an `Optional[int]` (`None` prints as
`None`). -/
def pyOptIntStr : Option Int → String
  | none => "None"
  | some t => toString t

/-- Python `a or b` for optional strings (an empty string is falsy). -/
def strOptTruthy : Option String → Bool
  | none => false
  | some s => s ≠ ""

/-- The `message` field of a parsed structured error body
(`e.response.json()`). -/
structure ErrorBody where
  message : Option String := none
  deriving DecidableEq, Repr

/-- An exception inside the `try` of the `RequestException` handler:
either the `SandboxError` the handler itself raises, or the failure of
`e.response.json()` (no response attached / body not JSON). -/
inductive PyExc where
  | sdk (e : SDKError)
  | attrOrDecode
  deriving DecidableEq, Repr

/-- Lines 410-416 of `_make_request`: the handler records the failure and
then runs `try: error_data = e.response.json(); raise SandboxError(...)
except: raise SandboxError(str(e))`. The `raise` with the structured
message sits inside the `try`, so the bare `except:` catches it as well;
`tryBlock` below always ends in `Except.error`, and the error actually
raised is always `SandboxError (str e)`. -/
def requestExceptionError (body_json : Option ErrorBody) (status : Int)
    (exc_str : String) : SDKError :=
  let tryBlock : Except PyExc Empty :=
    match body_json with
    | none => Except.error PyExc.attrOrDecode
    | some eb =>
        Except.error (PyExc.sdk (SDKError.sandboxError
          (eb.message.getD ("Request failed with status " ++ toString status))))
  match tryBlock with
  | Except.ok e => e.elim
  | Except.error _ => SDKError.sandboxError exc_str

/-- Sandbox dict returned by the server and cached by the client
(`template_config.language` flattened to `template_language`). -/
structure ServerSandbox where
  id : String
  template_language : Option String := none
  status : Option String := none
  deriving DecidableEq, Repr

/-- Context dict cached by the client. -/
structure CodeContext where
  id : String
  sandbox_id : Option String := none
  deriving DecidableEq, Repr

/-- A decoded JSON response body, with one optional slot per field any
operation reads (`logs.stdout`/`logs.stderr` flattened with their
defaults; `ctx_id`/`ctx_sandbox_id` are `id`/`sandbox_id` when the body
is a context). -/
structure ServerBody where
  sandbox : Option ServerSandbox := none
  status : Option String := none
  content : Option String := none
  path : Option String := none
  output : Option String := none
  log_stdout : List String := []
  log_stderr : List String := []
  results : Option (List RawData) := none
  error : Option ExecErrorData := none
  execution_count : Option Int := none
  ctx_id : Option String := none
  ctx_sandbox_id : Option String := none
  deriving DecidableEq, Repr

/-- Request payloads the facade builds. -/
inductive Payload where
  | createSandbox (options : RawData)
  | execute (code : Option String) (language : Option String) (envVars : Option RawData)
  | terminal (command : String)
  | fileWrite (content : String) (createParents : Bool)
  | createContext (language : Option String) (cwd : String)
  | template (raw : RawData)
  deriving DecidableEq, Repr

/-- One HTTP request as handed to `requests.request`. `timeout_eff` is
`timeout_ms or config.timeout` in ms (the source divides by 1000 for
seconds). -/
structure HttpRequest where
  method : String
  endpoint : String
  payload : Option Payload
  timeout_eff : Int
  deriving DecidableEq, Repr

/-- Python `timeout_ms or self.config["timeout"]` (0 is falsy). -/
def effTimeout (timeout_ms : Option Int) (cfg_timeout : Int) : Int :=
  match timeout_ms with
  | none => cfg_timeout
  | some t => if t = 0 then cfg_timeout else t

/-- Outcome of one transport call, as decided by the environment. -/
inductive TransportOutcome where
  | success (body : ServerBody) (elapsed : ℚ)
  | timedOut (elapsed : ℚ)
  | requestError (body_json : Option ErrorBody) (status : Int) (exc_str : String) (elapsed : ℚ)

/-- The transport oracle: the outcome of the `n`-th request issued. -/
abbrev Transport := Nat → TransportOutcome

/-- The environment of one facade call: transport behaviour and the
current wall clock (ms). -/
structure Env where
  transport : Transport
  now : Int

/-- Constructor configuration (logging and the metrics timer interval
drive only the logger and the background timer and are not modelled). -/
structure SDKConfig where
  api_key : String
  server_url : String
  timeout : Int := 60000
  max_retries : Int := 3
  retry_delay : Int := 1000
  deriving DecidableEq, Repr

/-- The mutable state of a `SandboxSDK` instance. -/
structure SDKState where
  config : SDKConfig
  active_sandboxes : List (String × ServerSandbox) := []
  active_contexts : List (String × CodeContext) := []
  metrics_collector : MetricsCollector := {}
  rate_limiter : RateLimiter := { max_requests_per_minute := 60 }
  deriving DecidableEq, Repr

/-- Python dict update-or-append (insertion order preserved). -/
def dictInsert {β : Type} (d : List (String × β)) (k : String) (v : β) :
    List (String × β) :=
  if (d.lookup k).isSome then d.map (fun kv => if kv.1 = k then (k, v) else kv)
  else d ++ [(k, v)]

/-- Python `del d[k]` (no-op when absent, matching the guarded deletes in
the source). -/
def dictErase {β : Type} (d : List (String × β)) (k : String) :
    List (String × β) :=
  d.filter (fun kv => kv.1 ≠ k)

/-- Result of one facade operation: outcome, post-state, and the request
trace (requests issued so far, in order). -/
abbrev Op (α : Type) := Except SDKError α × SDKState × List HttpRequest

/-- Models `SandboxSDK._make_request`: append the request to the trace, feed the
metrics collector from the outcome, return the body or raise. On timeout
the message interpolates the *raw* `timeout_ms` argument (so `None` when
no per-call override was given); on any other `RequestException` the
raised error comes from `requestExceptionError`. -/
def _make_request (env : Env) (st : SDKState) (tr : List HttpRequest)
    (method endpoint : String) (payload : Option Payload)
    (timeout_ms : Option Int) : Op ServerBody :=
  let req : HttpRequest :=
    { method := method, endpoint := endpoint, payload := payload
      timeout_eff := effTimeout timeout_ms st.config.timeout }
  let tr' := tr ++ [req]
  match env.transport tr.length with
  | .success body elapsed =>
      (Except.ok body,
       { st with metrics_collector := st.metrics_collector.record_request true elapsed },
       tr')
  | .timedOut elapsed =>
      (Except.error (SDKError.timeoutError
         ("Request timeout after " ++ pyOptIntStr timeout_ms ++ "ms")),
       { st with metrics_collector := st.metrics_collector.record_request false elapsed },
       tr')
  | .requestError bj status excs elapsed =>
      (Except.error (requestExceptionError bj status excs),
       { st with metrics_collector := st.metrics_collector.record_request false elapsed },
       tr')

/-- Models `SandboxSDK._check_rate_limit`: `can_make_request` (which prunes the
window), then either raise `RateLimitError(get_retry_after())` or record
the request. -/
def _check_rate_limit (env : Env) (st : SDKState) :
    Except SDKError Unit × SDKState :=
  let res := st.rate_limiter.can_make_request env.now
  if res.1 then
    (Except.ok (), { st with rate_limiter := res.2.record_request env.now })
  else
    (Except.error (SDKError.rateLimitError (res.2.get_retry_after env.now)),
     { st with rate_limiter := res.2 })

/-- Models `SandboxSDK.create_sandbox`: rate-limit check, POST create, cache the
returned sandbox (when truthy) by id. -/
def create_sandbox (env : Env) (st : SDKState) (tr : List HttpRequest)
    (options : RawData) : Op ServerBody :=
  match _check_rate_limit env st with
  | (Except.error e, st') => (Except.error e, st', tr)
  | (Except.ok _, st') =>
    match _make_request env st' tr "POST" "/api/sandboxes/create"
        (some (Payload.createSandbox options)) (some st.config.timeout) with
    | (Except.error e, st'', tr') => (Except.error e, st'', tr')
    | (Except.ok body, st'', tr') =>
        match body.sandbox with
        | some sb =>
            (Except.ok body,
             { st'' with active_sandboxes := dictInsert st''.active_sandboxes sb.id sb },
             tr')
        | none => (Except.ok body, st'', tr')

/-- Models `SandboxSDK.delete_sandbox`: purge matching contexts and the cached
sandbox locally, then issue the DELETE unconditionally — no cache
existence check and no rate-limit check. -/
def delete_sandbox (env : Env) (st : SDKState) (tr : List HttpRequest)
    (sandbox_id : String) : Op Unit :=
  let st' := { st with
    active_contexts :=
      st.active_contexts.filter (fun kv => kv.2.sandbox_id ≠ some sandbox_id)
    active_sandboxes := dictErase st.active_sandboxes sandbox_id }
  match _make_request env st' tr "DELETE" ("/api/sandboxes/" ++ sandbox_id)
      none none with
  | (Except.error e, st'', tr') => (Except.error e, st'', tr')
  | (Except.ok _, st'', tr') => (Except.ok (), st'', tr')

/-- Models `SandboxSDK.get_sandbox_status`: cache check (no rate-limit check),
GET status, write the returned status into the cached entry. -/
def get_sandbox_status (env : Env) (st : SDKState) (tr : List HttpRequest)
    (sandbox_id : String) : Op (Option String) :=
  match st.active_sandboxes.lookup sandbox_id with
  | none =>
      (Except.error (SDKError.sandboxError ("Sandbox " ++ sandbox_id ++ " not found")),
       st, tr)
  | some _ =>
    match _make_request env st tr "GET"
        ("/api/sandboxes/" ++ sandbox_id ++ "/status") none none with
    | (Except.error e, st', tr') => (Except.error e, st', tr')
    | (Except.ok body, st', tr') =>
        let sbs := st'.active_sandboxes.map (fun kv =>
          if kv.1 = sandbox_id then (kv.1, { kv.2 with status := body.status }) else kv)
        (Except.ok body.status, { st' with active_sandboxes := sbs }, tr')

/-- Models `SandboxSDK.list_sandboxes`: cached values, no network call. -/
def list_sandboxes (st : SDKState) : List ServerSandbox :=
  st.active_sandboxes.map Prod.snd

/-- Models `SandboxSDK.get_templates`: stateless passthrough, no rate-limit or
cache check. -/
def get_templates (env : Env) (st : SDKState) (tr : List HttpRequest)
    (page page_size : Int) : Op ServerBody :=
  _make_request env st tr "GET"
    ("/api/templates?page=" ++ toString page ++ "&pageSize=" ++ toString page_size)
    none none

/-- Models `SandboxSDK.get_template`. -/
def get_template (env : Env) (st : SDKState) (tr : List HttpRequest)
    (template_id : String) : Op ServerBody :=
  _make_request env st tr "GET" ("/api/templates/" ++ template_id) none none

/-- Models `SandboxSDK.create_template`. -/
def create_template (env : Env) (st : SDKState) (tr : List HttpRequest)
    (template : RawData) : Op ServerBody :=
  _make_request env st tr "POST" "/api/templates"
    (some (Payload.template template)) none

/-- Options of `run_code`/`run_terminal`/`execute_batch`. The observer
callbacks (`on_result`, `on_stdout`, `on_stderr`, `on_error`) only invoke
caller code and change no SDK state, so they are not modelled. -/
structure RunOpts where
  timeout_ms : Option Int := none
  envs : Option RawData := none
  deriving DecidableEq, Repr

/-- The decoding `run_code` performs on a successful execute response:
results (guarded by list truthiness), logs with their defaults, error,
execution counter. -/
def decodeExecution (body : ServerBody) : Execution :=
  let results := match body.results with
    | some rs =>
        if rs.isEmpty then []
        else rs.map (fun r => Result.ofRaw r (optTruthy (pyGet r "is_main_result")))
    | none => []
  { results := results
    logs := { stdout := body.log_stdout, stderr := body.log_stderr }
    error := body.error
    execution_count := body.execution_count }

/-- Models `SandboxSDK.run_code`: rate-limit check, cache check, POST execute
with the per-call timeout override, decode. The returned envelope's
`metadata`/`timestamp` fields hold a fresh random id and wall-clock
values only, so the model returns the decoded `Execution` (the
envelope's `execution` entry). -/
def run_code (env : Env) (st : SDKState) (tr : List HttpRequest)
    (sandbox_id : String) (code : Option String) (opts : RunOpts) :
    Op Execution :=
  match _check_rate_limit env st with
  | (Except.error e, st') => (Except.error e, st', tr)
  | (Except.ok _, st') =>
    match st'.active_sandboxes.lookup sandbox_id with
    | none =>
        (Except.error (SDKError.sandboxError ("Sandbox " ++ sandbox_id ++ " not found")),
         st', tr)
    | some sandbox =>
      match _make_request env st' tr "POST"
          ("/api/sandboxes/" ++ sandbox_id ++ "/execute")
          (some (Payload.execute code sandbox.template_language opts.envs))
          opts.timeout_ms with
      | (Except.error e, st'', tr') => (Except.error e, st'', tr')
      | (Except.ok body, st'', tr') => (Except.ok (decodeExecution body), st'', tr')

/-- Models `SandboxSDK.run_terminal`: rate-limit check, cache check, POST
terminal, return `output` (default `""`). -/
def run_terminal (env : Env) (st : SDKState) (tr : List HttpRequest)
    (sandbox_id : String) (command : String) (opts : RunOpts) : Op String :=
  match _check_rate_limit env st with
  | (Except.error e, st') => (Except.error e, st', tr)
  | (Except.ok _, st') =>
    match st'.active_sandboxes.lookup sandbox_id with
    | none =>
        (Except.error (SDKError.sandboxError ("Sandbox " ++ sandbox_id ++ " not found")),
         st', tr)
    | some _ =>
      match _make_request env st' tr "POST"
          ("/api/sandboxes/" ++ sandbox_id ++ "/terminal")
          (some (Payload.terminal command)) opts.timeout_ms with
      | (Except.error e, st'', tr') => (Except.error e, st'', tr')
      | (Except.ok body, st'', tr') => (Except.ok (body.output.getD ""), st'', tr')

/-- Models `SandboxSDK.read_file`: cache check (no rate-limit check), GET. -/
def read_file (env : Env) (st : SDKState) (tr : List HttpRequest)
    (sandbox_id path : String) : Op String :=
  match st.active_sandboxes.lookup sandbox_id with
  | none =>
      (Except.error (SDKError.sandboxError ("Sandbox " ++ sandbox_id ++ " not found")),
       st, tr)
  | some _ =>
    match _make_request env st tr "GET"
        ("/api/sandboxes/" ++ sandbox_id ++ "/files?path=" ++ path) none none with
    | (Except.error e, st', tr') => (Except.error e, st', tr')
    | (Except.ok body, st', tr') => (Except.ok (body.content.getD ""), st', tr')

/-- Models `SandboxSDK.write_file`: cache check (no rate-limit check), POST. -/
def write_file (env : Env) (st : SDKState) (tr : List HttpRequest)
    (sandbox_id path content : String) (create_parents : Bool) : Op String :=
  match st.active_sandboxes.lookup sandbox_id with
  | none =>
      (Except.error (SDKError.sandboxError ("Sandbox " ++ sandbox_id ++ " not found")),
       st, tr)
  | some _ =>
    match _make_request env st tr "POST"
        ("/api/sandboxes/" ++ sandbox_id ++ "/files?path=" ++ path)
        (some (Payload.fileWrite content create_parents)) none with
    | (Except.error e, st', tr') => (Except.error e, st', tr')
    | (Except.ok body, st', tr') => (Except.ok (body.path.getD ""), st', tr')

/-- Models `SandboxSDK.delete_file`: cache check (no rate-limit check), DELETE. -/
def delete_file (env : Env) (st : SDKState) (tr : List HttpRequest)
    (sandbox_id path : String) : Op Unit :=
  match st.active_sandboxes.lookup sandbox_id with
  | none =>
      (Except.error (SDKError.sandboxError ("Sandbox " ++ sandbox_id ++ " not found")),
       st, tr)
  | some _ =>
    match _make_request env st tr "DELETE"
        ("/api/sandboxes/" ++ sandbox_id ++ "/files?path=" ++ path) none none with
    | (Except.error e, st', tr') => (Except.error e, st', tr')
    | (Except.ok _, st', tr') => (Except.ok (), st', tr')

/-- Models `SandboxSDK.list_files`: cache check (no rate-limit check), GET. -/
def list_files (env : Env) (st : SDKState) (tr : List HttpRequest)
    (sandbox_id dir_path : String) : Op ServerBody :=
  match st.active_sandboxes.lookup sandbox_id with
  | none =>
      (Except.error (SDKError.sandboxError ("Sandbox " ++ sandbox_id ++ " not found")),
       st, tr)
  | some _ =>
    _make_request env st tr "GET"
      ("/api/sandboxes/" ++ sandbox_id ++ "/files/list?path=" ++ dir_path) none none

/-- Models `SandboxSDK.create_code_context`: cache check (no rate-limit check),
POST with defaulted language/cwd (Python `or`, empty string falsy), cache
the returned context by `context["id"]` (a missing `id` key raises
`KeyError`). -/
def create_code_context (env : Env) (st : SDKState) (tr : List HttpRequest)
    (sandbox_id : String) (language : Option String) (cwd : Option String)
    (request_timeout_ms : Option Int) : Op ServerBody :=
  match st.active_sandboxes.lookup sandbox_id with
  | none =>
      (Except.error (SDKError.sandboxError ("Sandbox " ++ sandbox_id ++ " not found")),
       st, tr)
  | some sandbox =>
    let lang := if strOptTruthy language then language else sandbox.template_language
    let cwdv := if strOptTruthy cwd then cwd.getD "/workspace" else "/workspace"
    match _make_request env st tr "POST"
        ("/api/sandboxes/" ++ sandbox_id ++ "/contexts")
        (some (Payload.createContext lang cwdv)) request_timeout_ms with
    | (Except.error e, st', tr') => (Except.error e, st', tr')
    | (Except.ok body, st', tr') =>
        match body.ctx_id with
        | none => (Except.error (SDKError.keyError "id"), st', tr')
        | some cid =>
            let ctxs := dictInsert st'.active_contexts cid
              { id := cid, sandbox_id := body.ctx_sandbox_id }
            (Except.ok body, { st' with active_contexts := ctxs }, tr')

/-- Models `SandboxSDK.delete_code_context`: no-op when the id is not cached;
otherwise remove from the cache first, then DELETE only when the cached
context carried a truthy `sandbox_id`. -/
def delete_code_context (env : Env) (st : SDKState) (tr : List HttpRequest)
    (context_id : String) : Op Unit :=
  match st.active_contexts.lookup context_id with
  | none => (Except.ok (), st, tr)
  | some ctx =>
    let st' := { st with active_contexts := dictErase st.active_contexts context_id }
    if strOptTruthy ctx.sandbox_id then
      match _make_request env st' tr "DELETE"
          ("/api/sandboxes/" ++ ctx.sandbox_id.getD "" ++ "/contexts/" ++ context_id)
          none none with
      | (Except.error e, st'', tr') => (Except.error e, st'', tr')
      | (Except.ok _, st'', tr') => (Except.ok (), st'', tr')
    else (Except.ok (), st', tr)

/-- Models `SandboxSDK.list_code_contexts`: cache filter, no network call. -/
def list_code_contexts (st : SDKState) (sandbox_id : String) : List CodeContext :=
  (st.active_contexts.map Prod.snd).filter (fun c => c.sandbox_id = some sandbox_id)

/-- One batch job dict (`id`, `code`, `timeout`). -/
structure BatchJob where
  id : Option String := none
  code : Option String := none
  timeout : Option Int := none
  deriving DecidableEq, Repr

/-- One record of `execute_batch` (the wall-clock `duration` entry is not
modelled). -/
structure BatchRecord where
  job_id : Option String
  success : Bool
  execution : Option Execution := none
  error : Option String := none
  deriving DecidableEq, Repr

/-- The sequential loop of `execute_batch`: each job calls `run_code`
with the job timeout overriding the merged options; an exception from
that one job is converted to a `success:false` record carrying `str(e)`,
and the loop continues. -/
def batchLoop (env : Env) (sandbox_id : String) (opts : RunOpts) :
    List BatchJob → SDKState → List HttpRequest →
    List BatchRecord × SDKState × List HttpRequest
  | [], st, tr => ([], st, tr)
  | job :: rest, st, tr =>
    let step := run_code env st tr sandbox_id job.code
      { opts with timeout_ms := job.timeout }
    let record : BatchRecord := match step.1 with
      | Except.ok ex => { job_id := job.id, success := true, execution := some ex }
      | Except.error e => { job_id := job.id, success := false, error := some e.message }
    let next := batchLoop env sandbox_id opts rest step.2.1 step.2.2
    (record :: next.1, next.2.1, next.2.2)

/-- Models `SandboxSDK.execute_batch`: cache check, then the sequential loop. -/
def execute_batch (env : Env) (st : SDKState) (tr : List HttpRequest)
    (sandbox_id : String) (jobs : List BatchJob) (opts : RunOpts) :
    Op (List BatchRecord) :=
  match st.active_sandboxes.lookup sandbox_id with
  | none =>
      (Except.error (SDKError.sandboxError ("Sandbox " ++ sandbox_id ++ " not found")),
       st, tr)
  | some _ =>
    let res := batchLoop env sandbox_id opts jobs st tr
    (Except.ok res.1, res.2.1, res.2.2)

/-! ## Predicates and fixtures used by the verification -/

/-- The buffer-eviction step of `record_request`. -/
def evict (l : List ℚ) : List ℚ :=
  if l.length > 1000 then l.tail else l

/-- The inductive invariant of `MetricsCollector` relative to the samples
recorded since the last reset. -/
def MetricsInv (c : MetricsCollector) (acc : List ℚ) : Prop :=
  c.metrics.total_requests
      = c.metrics.successful_requests + c.metrics.failed_requests ∧
  c.response_times = lastN 1000 acc ∧
  c.metrics.average_response_time =
    (if c.response_times = [] then 0
     else c.response_times.sum / (c.response_times.length : ℚ))

/-- A transport whose exception rendering (`str(e)`) is never the empty
string — true of every `requests` exception. -/
def TransportOutcome.excNonEmpty : TransportOutcome → Prop
  | .requestError _ _ exc_str _ => exc_str ≠ ""
  | _ => True

/-- Correspondence between one batch job and its record: the id is
copied; a successful job carries an execution and no error, a failed one
carries a non-empty error message and no execution. -/
def recordMatches (job : BatchJob) (rec : BatchRecord) : Prop :=
  rec.job_id = job.id ∧
  ((rec.success = true ∧ rec.error = none ∧ (∃ ex, rec.execution = some ex)) ∨
   (rec.success = false ∧ rec.execution = none ∧
     (∃ m, rec.error = some m ∧ m ≠ "")))

/-- A post-construction configuration. -/
def cfg0 : SDKConfig := { api_key := "key", server_url := "http://server" }

/-- A freshly constructed client state (empty caches, empty limiter). -/
def st0 : SDKState := { config := cfg0 }

/-- A client state with one cached sandbox `"sb"`. -/
def stSb : SDKState :=
  { config := cfg0, active_sandboxes := [("sb", { id := "sb" })] }

/-- A client state with one cached sandbox and a saturated rate limiter
(60 requests recorded inside the current window). -/
def stSat : SDKState :=
  { config := cfg0
    active_sandboxes := [("sb", { id := "sb" })]
    rate_limiter :=
      { max_requests_per_minute := 60, request_timestamps := List.replicate 60 0 } }

/-- A transport on which every request succeeds with an empty body. -/
def envOk : Env := { transport := fun _ => .success {} 5, now := 0 }

/-- A transport on which every request times out. -/
def envTO : Env := { transport := fun _ => .timedOut 7, now := 0 }

/-- A transport on which every request fails with an HTTP error whose
response carries the structured body `{"message": "boom"}`. -/
def envErr : Env :=
  { transport := fun _ =>
      .requestError (some { message := some "boom" }) 500 "HTTPError 500" 5
    now := 0 }

/-- A transport on which exactly the second request fails (connection
refused, no response body) and every other one succeeds. -/
def env3 : Env :=
  { transport := fun n =>
      if n = 1 then .requestError none 500 "Connection refused" 3
      else .success {} 2
    now := 0 }

/-- Three batch jobs; on `env3` the second one's execute request fails. -/
def jobs3 : List BatchJob :=
  [{ id := some "j1", code := some "x = 1" },
   { id := some "j2", code := some "boom" },
   { id := some "j3", code := some "x = 3" }]

/-! ## Helper lemmas -/

/-- The source loop of `Execution.text` returns the `text` of the first
matching element. -/
theorem firstMainText_eq_find (l : List Result) :
    firstMainText l =
      (match l.find? (fun r => r.is_main_result && optTruthy r.text) with
       | some r => r.text
       | none => none) := by
  induction l with
  | nil => rfl
  | cons r rest ih =>
      by_cases h : (r.is_main_result && optTruthy r.text) = true
      · simp [firstMainText, List.find?_cons, h]
      · simp only [firstMainText, List.find?_cons]
        rw [if_neg (by simpa using h)]
        simp only [Bool.not_eq_true] at h
        rw [h]
        exact ih

/-- Singleton-append form of one `filter` step. -/
theorem filter_cons_append {α : Type} (p : α → Bool) (a : α) (l : List α) :
    List.filter p (a :: l) = (if p a then [a] else []) ++ List.filter p l := by
  by_cases h : p a <;> simp [h]

theorem evict_ne_nil (l : List ℚ) (rt : ℚ) : evict (l ++ [rt]) ≠ [] := by
  unfold evict
  by_cases h : (l ++ [rt]).length > 1000
  · rw [if_pos h]
    intro hnil
    have hlen : (l ++ [rt]).tail.length = 0 := by rw [hnil]; rfl
    rw [List.length_tail] at hlen
    omega
  · rw [if_neg h]; simp

/-- Appending one sample to the trailing window and evicting matches the
trailing window of the extended sample list. -/
theorem evict_lastN (acc : List ℚ) (rt : ℚ) :
    evict (lastN 1000 acc ++ [rt]) = lastN 1000 (acc ++ [rt]) := by
  unfold evict lastN
  by_cases h : acc.length ≤ 999
  · have h1 : acc.length - 1000 = 0 := by omega
    have h2 : (acc ++ [rt]).length - 1000 = 0 := by simp; omega
    rw [h1, h2]
    simp only [List.drop_zero]
    rw [if_neg (by simp; omega)]
  · have h1 : (acc.drop (acc.length - 1000)).length = 1000 := by
      simp [List.length_drop]; omega
    rw [if_pos (by simp [h1])]
    have hne : acc.drop (acc.length - 1000) ≠ [] := by
      intro hnil; rw [hnil] at h1; simp at h1
    rw [List.tail_append_of_ne_nil hne, List.tail_drop]
    rw [List.drop_append_of_le_length
      (by simp only [List.length_append, List.length_singleton]; omega)]
    have : (acc ++ [rt]).length - 1000 = acc.length - 1000 + 1 := by
      simp only [List.length_append, List.length_singleton]; omega
    rw [this]

/-- Normal form of `record_request`: counter bumps, buffer step, and the
recomputed mean (the buffer is never empty after an append, so
`_update_average_response_time` always recomputes). -/
theorem record_request_eq (c : MetricsCollector) (s : Bool) (rt : ℚ) :
    c.record_request s rt =
      { metrics :=
          { total_requests := c.metrics.total_requests + 1
            successful_requests := c.metrics.successful_requests + (if s then 1 else 0)
            failed_requests := c.metrics.failed_requests + (if s then 0 else 1)
            average_response_time :=
              (evict (c.response_times ++ [rt])).sum /
                ((evict (c.response_times ++ [rt])).length : ℚ)
            total_execution_time := c.metrics.total_execution_time
            active_sandboxes := c.metrics.active_sandboxes }
        response_times := evict (c.response_times ++ [rt]) } := by
  have hne := evict_ne_nil c.response_times rt
  cases s <;>
    simp [MetricsCollector.record_request, MetricsCollector._update_average_response_time,
      evict, hne] <;>
    split <;>
    simp_all [evict]

theorem metricsInv_applyOp (c : MetricsCollector) (acc : List ℚ) (op : MetricsOp)
    (h : MetricsInv c acc) :
    MetricsInv (c.applyOp op) (samplesAcc acc [op]) := by
  obtain ⟨h1, h2, h3⟩ := h
  cases op with
  | recordRequest s rt =>
      have hbuf : evict (c.response_times ++ [rt]) = lastN 1000 (acc ++ [rt]) := by
        rw [h2]; exact evict_lastN acc rt
      refine ⟨?_, ?_, ?_⟩
      · rw [MetricsCollector.applyOp, record_request_eq]
        cases s <;> simp <;> omega
      · rw [MetricsCollector.applyOp, record_request_eq]
        simpa [samplesAcc] using hbuf
      · rw [MetricsCollector.applyOp, record_request_eq]
        have hne := evict_ne_nil c.response_times rt
        simp [hne]
  | recordExecution d =>
      exact ⟨h1, h2, h3⟩
  | updateActiveSandboxes n =>
      exact ⟨h1, h2, h3⟩
  | reset =>
      refine ⟨rfl, rfl, by simp [MetricsCollector.applyOp, MetricsCollector.reset, samplesAcc]⟩

theorem metricsInv_applyOps (ops : List MetricsOp) :
    ∀ (c : MetricsCollector) (acc : List ℚ), MetricsInv c acc →
      MetricsInv (c.applyOps ops) (samplesAcc acc ops) := by
  induction ops with
  | nil => intro c acc h; exact h
  | cons op rest ih =>
      intro c acc h
      have hstep := metricsInv_applyOp c acc op h
      have heq : ∀ a, samplesAcc a (op :: rest) = samplesAcc (samplesAcc a [op]) rest := by
        intro a; cases op <;> rfl
      rw [heq, MetricsCollector.applyOps]
      exact ih _ _ hstep

end SandboxSDK

/-! ## Claims -/

open SandboxSDK

/-- C7: `Execution.text` returns the text of the first `Result` in the
ordered results sequence satisfying `is_main_result && text` non-empty,
and returns nothing when no such element exists; in particular, for
results `[{is_main_result:false, text:"a"}, {is_main_result:true,
text:""}, {is_main_result:true, text:"b"}]` it returns `"b"`. -/
theorem C7_execution_text :
    (∀ e : Execution, e.text = e.textSpec) ∧
    Execution.text
      { results := [Result.ofRaw [("text", PyVal.str "a")] false,
                    Result.ofRaw [("text", PyVal.str "")] true,
                    Result.ofRaw [("text", PyVal.str "b")] true] }
      = some (PyVal.str "b") := by
  constructor
  · intro e
    simpa [Execution.text, Execution.textSpec] using firstMainText_eq_find e.results
  · decide

/-- C8: `Result.formats()` returns exactly the recognized formats that
are non-empty, in the fixed order `text, html, markdown, svg, png, jpeg,
pdf, latex, json, javascript, data, chart`, followed by the keys of
`extra` in insertion order; a payload with only `text` set yields
`formats() = ["text"]`, and an unrecognized key `"foo"` surfaces both in
`extra["foo"]` and in `formats()` after all known formats. -/
theorem C8_result_formats :
    (∀ r : Result, r.formats = r.formatsSpec) ∧
    (Result.ofRaw [("text", PyVal.str "hello")] false).formats = ["text"] ∧
    pyGet (Result.ofRaw [("text", PyVal.str "t"), ("foo", PyVal.str "bar")] false).extra "foo"
      = some (PyVal.str "bar") ∧
    (Result.ofRaw [("text", PyVal.str "t"), ("foo", PyVal.str "bar")] false).formats
      = ["text", "foo"] := by
  refine ⟨?_, by decide, by decide, by decide⟩
  intro r
  show _ = List.filter _ _ ++ _
  rw [show knownFormatOrder =
        ["text", "html", "markdown", "svg", "png", "jpeg", "pdf", "latex",
         "json", "javascript", "data", "chart"] from rfl]
  simp only [filter_cons_append, List.filter_nil, List.append_assoc, List.append_nil]
  simp only [Result.formats, List.append_assoc]
  rfl

/-- C5: `can_make_request()` is true iff, after discarding every recorded
timestamp older than 60000 ms relative to now, fewer than
`max_requests_per_minute` timestamps remain; after recording
`max_requests_per_minute` requests within one window it returns false,
and once the oldest timestamp ages past 60000 ms exactly one unit of
capacity frees. -/
theorem C5_rate_limiter_window (r : RateLimiter) (now now2 t : Int) (rest : List Int)
    (hts : r.request_timestamps = t :: rest)
    (hfull : (t :: rest).length = r.max_requests_per_minute)
    (hwin : ∀ x ∈ t :: rest, x > now - 60000)
    (hold : t ≤ now2 - 60000)
    (hrest : ∀ x ∈ rest, x > now2 - 60000) :
    (∀ (q : RateLimiter) (n : Int),
        ((q.can_make_request n).1 = true ↔
          (q.request_timestamps.filter (fun ts => ts > n - 60000)).length
            < q.max_requests_per_minute)) ∧
    (r.can_make_request now).1 = false ∧
    (r.can_make_request now2).1 = true ∧
    (r.can_make_request now2).2.request_timestamps.length + 1
      = r.max_requests_per_minute := by
  have hiff : ∀ (q : RateLimiter) (n : Int),
      ((q.can_make_request n).1 = true ↔
        (q.request_timestamps.filter (fun ts => ts > n - 60000)).length
          < q.max_requests_per_minute) := by
    intro q n
    simp [RateLimiter.can_make_request]
  have hkeep : (t :: rest).filter (fun ts => decide (ts > now - 60000)) = t :: rest :=
    List.filter_eq_self.mpr (fun a ha => decide_eq_true (hwin a ha))
  have hkeep2 : (t :: rest).filter (fun ts => decide (ts > now2 - 60000)) = rest := by
    rw [List.filter_cons_of_neg (by simp; omega)]
    exact List.filter_eq_self.mpr (fun a ha => decide_eq_true (hrest a ha))
  refine ⟨hiff, ?_, ?_, ?_⟩
  · simp only [RateLimiter.can_make_request, hts, hkeep, hfull]
    simp
  · simp only [RateLimiter.can_make_request, hts, hkeep2]
    simp only [List.length_cons] at hfull
    simp
    omega
  · simp only [RateLimiter.can_make_request, hts, hkeep2]
    simp only [List.length_cons] at hfull
    exact hfull

/-- C5 witness: a limiter at capacity 2 with both timestamps in the
window refuses; after the oldest ages out, exactly one slot frees. -/
theorem C5_rate_limiter_window_witness :
    ({ max_requests_per_minute := 2, request_timestamps := [1000, 30000] }
        : RateLimiter).request_timestamps = [1000, 30000] ∧
    (([1000, 30000] : List Int).length = 2) ∧
    (∀ x ∈ ([1000, 30000] : List Int), x > 40000 - 60000) ∧
    ((1000 : Int) ≤ 70000 - 60000) ∧
    (∀ x ∈ ([30000] : List Int), x > 70000 - 60000) ∧
    ((({ max_requests_per_minute := 2, request_timestamps := [1000, 30000] }
        : RateLimiter).can_make_request 40000).1 = false ∧
     (({ max_requests_per_minute := 2, request_timestamps := [1000, 30000] }
        : RateLimiter).can_make_request 70000).1 = true) := by
  refine ⟨rfl, by decide, by decide, by decide, by decide, ?_⟩
  have h := C5_rate_limiter_window
    { max_requests_per_minute := 2, request_timestamps := [1000, 30000] }
    40000 70000 1000 [30000] rfl (by decide) (by decide) (by decide) (by decide)
  exact ⟨h.2.1, h.2.2.1⟩

/-- C6: for every interleaving of `record_request`, `record_execution`,
`update_active_sandboxes`, and `reset`, `total_requests =
successful_requests + failed_requests`; the response-time buffer holds at
most the last 1000 samples recorded since the last reset (FIFO eviction),
and `average_response_time` is their arithmetic mean, remaining 0 while
no sample has been recorded. -/
theorem C6_metrics_invariant (ops : List MetricsOp) :
    (MetricsCollector.applyOps {} ops).metrics.total_requests
      = (MetricsCollector.applyOps {} ops).metrics.successful_requests
        + (MetricsCollector.applyOps {} ops).metrics.failed_requests ∧
    (MetricsCollector.applyOps {} ops).response_times
      = lastN 1000 (samplesAcc [] ops) ∧
    (MetricsCollector.applyOps {} ops).metrics.average_response_time
      = (if lastN 1000 (samplesAcc [] ops) = [] then 0
         else (lastN 1000 (samplesAcc [] ops)).sum
              / ((lastN 1000 (samplesAcc [] ops)).length : ℚ)) := by
  have h := metricsInv_applyOps ops {} [] ⟨rfl, rfl, by simp [lastN]⟩
  obtain ⟨h1, h2, h3⟩ := h
  exact ⟨h1, h2, by rw [h3, h2]⟩

/-- C10: `run_code` (and `run_terminal`) on a sandbox id absent from the
local cache, when the rate limiter permits, raises `SandboxError` and
leaves the sandbox cache, context cache, and metrics collector unchanged
and issues no request — but the rate limiter has already pruned its
window and appended one request timestamp, because the limiter is
consulted and recorded before the cache existence check. -/
theorem C10_not_found_consumes_rate_slot (env : Env) (st : SDKState)
    (tr : List HttpRequest) (sandbox_id : String) (code : Option String)
    (command : String) (opts : RunOpts)
    (habs : st.active_sandboxes.lookup sandbox_id = none)
    (hok : (st.rate_limiter.can_make_request env.now).1 = true) :
    (run_code env st tr sandbox_id code opts).1
        = Except.error (SDKError.sandboxError
            ("Sandbox " ++ sandbox_id ++ " not found")) ∧
    (run_code env st tr sandbox_id code opts).2.2 = tr ∧
    (run_code env st tr sandbox_id code opts).2.1.active_sandboxes
        = st.active_sandboxes ∧
    (run_code env st tr sandbox_id code opts).2.1.active_contexts
        = st.active_contexts ∧
    (run_code env st tr sandbox_id code opts).2.1.metrics_collector
        = st.metrics_collector ∧
    (run_code env st tr sandbox_id code opts).2.1.rate_limiter.request_timestamps
        = st.rate_limiter.request_timestamps.filter
            (fun ts => ts > env.now - 60000) ++ [env.now] ∧
    (run_terminal env st tr sandbox_id command opts).1
        = Except.error (SDKError.sandboxError
            ("Sandbox " ++ sandbox_id ++ " not found")) ∧
    (run_terminal env st tr sandbox_id command opts).2.2 = tr := by
  have hcheck : _check_rate_limit env st =
      (Except.ok (),
       { st with rate_limiter :=
           (st.rate_limiter.can_make_request env.now).2.record_request env.now }) := by
    simp [_check_rate_limit, hok]
  refine ⟨?_, ?_, ?_, ?_, ?_, ?_, ?_, ?_⟩ <;>
    simp [run_code, run_terminal, hcheck, habs,
      RateLimiter.record_request, RateLimiter.can_make_request]

/-- C10 witness: a fresh client has an empty cache and an admitting
limiter; `run_code` on an unknown id fails without a request and leaves
one timestamp in the limiter. -/
theorem C10_not_found_consumes_rate_slot_witness :
    (st0.active_sandboxes.lookup "ghost" = none) ∧
    ((st0.rate_limiter.can_make_request envOk.now).1 = true) ∧
    ((run_code envOk st0 [] "ghost" none {}).1
        = Except.error (SDKError.sandboxError
            ("Sandbox " ++ "ghost" ++ " not found"))) ∧
    ((run_code envOk st0 [] "ghost" none {}).2.2 = ([] : List HttpRequest)) ∧
    ((run_code envOk st0 [] "ghost" none {}).2.1.rate_limiter.request_timestamps
        = st0.rate_limiter.request_timestamps.filter
            (fun ts => ts > envOk.now - 60000) ++ [envOk.now]) := by
  have h := C10_not_found_consumes_rate_slot envOk st0 [] "ghost" none "cmd" {}
    (by decide) (by decide)
  exact ⟨by decide, by decide, h.1, h.2.1, h.2.2.2.2.2.1⟩

/-- C1 (code-bug evidence): on a non-timeout transport failure the
client records `(false, elapsed_ms)` and raises `SandboxError`, but the
message is always `str(e)` — never the structured body's `message` field
— because the `raise` carrying the structured message sits inside the
`try` whose bare `except:` catches it. First conjunct: the handler's
result ignores the structured body for every input; the rest evaluate
the failing input (a response with body `{"message": "boom"}`). -/
theorem C1_structured_error_message_swallowed :
    (∀ (bj : Option ErrorBody) (status : Int) (excs : String),
        requestExceptionError bj status excs = SDKError.sandboxError excs) ∧
    (_make_request envErr st0 [] "GET" "/api/sandboxes/x/status" none none).1
        = Except.error (SDKError.sandboxError "HTTPError 500") ∧
    ("HTTPError 500" ≠ "boom") ∧
    (_make_request envErr st0 [] "GET" "/api/sandboxes/x/status"
        none none).2.1.metrics_collector.metrics.failed_requests = 1 ∧
    (_make_request envErr st0 [] "GET" "/api/sandboxes/x/status"
        none none).2.1.metrics_collector.metrics.total_requests = 1 ∧
    (_make_request envErr st0 [] "GET" "/api/sandboxes/x/status"
        none none).2.1.metrics_collector.response_times = [5] := by
  refine ⟨?_, by rfl, by decide, by decide, by decide, by decide⟩
  intro bj status excs
  cases bj <;> rfl

/-- C4 (code-bug evidence): a timeout records `(false, elapsed_ms)` and
raises `TimeoutError`, and the transport is handed the effective timeout
(override or configured), but the error message interpolates the raw
`timeout_ms` argument — so with no per-call override it reads
`"Request timeout after Nonems"` instead of carrying the configured
60000 ms; with an override it does carry the override. -/
theorem C4_timeout_message_uses_raw_override :
    (_make_request envTO st0 [] "POST" "/api/sandboxes/x/execute" none none).1
        = Except.error (SDKError.timeoutError "Request timeout after Nonems") ∧
    ("Request timeout after Nonems" ≠ "Request timeout after 60000ms") ∧
    (_make_request envTO st0 [] "POST" "/api/sandboxes/x/execute" none none).2.2
        = [{ method := "POST", endpoint := "/api/sandboxes/x/execute",
             payload := none, timeout_eff := 60000 }] ∧
    (_make_request envTO st0 [] "POST" "/api/sandboxes/x/execute"
        none (some 30000)).1
        = Except.error (SDKError.timeoutError "Request timeout after 30000ms") ∧
    (_make_request envTO st0 [] "POST" "/api/sandboxes/x/execute"
        none none).2.1.metrics_collector.metrics.failed_requests = 1 ∧
    (_make_request envTO st0 [] "POST" "/api/sandboxes/x/execute"
        none none).2.1.metrics_collector.response_times = [7] := by
  refine ⟨by rfl, by decide, by decide, by rfl, by decide, by decide⟩

/-- C2 counterexample: `delete_sandbox` is an id-targeted facade
operation, yet on an id that was never stored it raises nothing and
performs one network round trip (the DELETE is issued unconditionally),
so the claim quantified over every id-targeted operation is false. -/
theorem C2_counterexample_delete_sandbox_round_trip :
    st0.active_sandboxes.lookup "ghost" = none ∧
    (delete_sandbox envOk st0 [] "ghost").1 = Except.ok () ∧
    (delete_sandbox envOk st0 [] "ghost").2.2
      = [{ method := "DELETE", endpoint := "/api/sandboxes/ghost",
           payload := none, timeout_eff := 60000 }] := by
  exact ⟨by decide, by rfl, by rfl⟩

/-- C2 amended: every id-targeted operation that checks the local cache
— `get_sandbox_status`, `read_file`, `write_file`, `delete_file`,
`list_files`, `create_code_context`, `execute_batch`, and (when the rate
limiter admits, since it is consulted first) `run_code` and
`run_terminal` — fails with `SandboxError` "not found" on an id absent
from the cache, with zero network round trips; `delete_sandbox` and
`delete_code_context` are the exceptions. -/
theorem C2_amended_unknown_id_fails_before_network (env : Env) (st : SDKState)
    (tr : List HttpRequest) (sandbox_id path content dir_path command : String)
    (code : Option String) (opts : RunOpts) (language cwd : Option String)
    (rtms : Option Int) (jobs : List BatchJob) (create_parents : Bool)
    (habs : st.active_sandboxes.lookup sandbox_id = none) :
    (get_sandbox_status env st tr sandbox_id).1
        = Except.error (SDKError.sandboxError
            ("Sandbox " ++ sandbox_id ++ " not found")) ∧
    (get_sandbox_status env st tr sandbox_id).2.2 = tr ∧
    (read_file env st tr sandbox_id path).1
        = Except.error (SDKError.sandboxError
            ("Sandbox " ++ sandbox_id ++ " not found")) ∧
    (read_file env st tr sandbox_id path).2.2 = tr ∧
    (write_file env st tr sandbox_id path content create_parents).1
        = Except.error (SDKError.sandboxError
            ("Sandbox " ++ sandbox_id ++ " not found")) ∧
    (write_file env st tr sandbox_id path content create_parents).2.2 = tr ∧
    (delete_file env st tr sandbox_id path).1
        = Except.error (SDKError.sandboxError
            ("Sandbox " ++ sandbox_id ++ " not found")) ∧
    (delete_file env st tr sandbox_id path).2.2 = tr ∧
    (list_files env st tr sandbox_id dir_path).1
        = Except.error (SDKError.sandboxError
            ("Sandbox " ++ sandbox_id ++ " not found")) ∧
    (list_files env st tr sandbox_id dir_path).2.2 = tr ∧
    (create_code_context env st tr sandbox_id language cwd rtms).1
        = Except.error (SDKError.sandboxError
            ("Sandbox " ++ sandbox_id ++ " not found")) ∧
    (create_code_context env st tr sandbox_id language cwd rtms).2.2 = tr ∧
    (execute_batch env st tr sandbox_id jobs opts).1
        = Except.error (SDKError.sandboxError
            ("Sandbox " ++ sandbox_id ++ " not found")) ∧
    (execute_batch env st tr sandbox_id jobs opts).2.2 = tr ∧
    ((st.rate_limiter.can_make_request env.now).1 = true →
      (run_code env st tr sandbox_id code opts).1
          = Except.error (SDKError.sandboxError
              ("Sandbox " ++ sandbox_id ++ " not found")) ∧
      (run_code env st tr sandbox_id code opts).2.2 = tr ∧
      (run_terminal env st tr sandbox_id command opts).1
          = Except.error (SDKError.sandboxError
              ("Sandbox " ++ sandbox_id ++ " not found")) ∧
      (run_terminal env st tr sandbox_id command opts).2.2 = tr) := by
  refine ⟨?_, ?_, ?_, ?_, ?_, ?_, ?_, ?_, ?_, ?_, ?_, ?_, ?_, ?_, ?_⟩ <;>
    first
    | simp [get_sandbox_status, read_file, write_file, delete_file, list_files,
        create_code_context, execute_batch, habs]
    | (intro hok
       have hcheck : _check_rate_limit env st =
           (Except.ok (),
            { st with rate_limiter :=
                (st.rate_limiter.can_make_request env.now).2.record_request env.now }) := by
         simp [_check_rate_limit, hok]
       refine ⟨?_, ?_, ?_, ?_⟩ <;> simp [run_code, run_terminal, hcheck, habs])

/-- C2 witness: a fresh client with an empty cache; `run_code` and
`read_file` on the unknown id `"ghost"` fail with `SandboxError` and an
unchanged (empty) request trace. -/
theorem C2_amended_unknown_id_fails_before_network_witness :
    (st0.active_sandboxes.lookup "ghost" = none) ∧
    ((read_file envOk st0 [] "ghost" "/tmp/a").1
        = Except.error (SDKError.sandboxError
            ("Sandbox " ++ "ghost" ++ " not found"))) ∧
    ((read_file envOk st0 [] "ghost" "/tmp/a").2.2 = ([] : List HttpRequest)) ∧
    ((run_code envOk st0 [] "ghost" none {}).2.2 = ([] : List HttpRequest)) := by
  have h := C2_amended_unknown_id_fails_before_network envOk st0 [] "ghost"
    "/tmp/a" "c" "." "cmd" none {} none none none [] true (by decide)
  exact ⟨by decide, h.2.2.1, h.2.2.2.1, (h.2.2.2.2.2.2.2.2.2.2.2.2.2.2 (by decide)).2.1⟩

/-- Frame facts of one transport call: `_make_request` never touches the
rate limiter or the caches, and always appends exactly one request. -/
theorem _make_request_frame (env : Env) (st : SDKState) (tr : List HttpRequest)
    (m ep : String) (p : Option Payload) (t : Option Int) :
    (_make_request env st tr m ep p t).2.1.rate_limiter = st.rate_limiter ∧
    (_make_request env st tr m ep p t).2.1.active_sandboxes = st.active_sandboxes ∧
    (_make_request env st tr m ep p t).2.2.length = tr.length + 1 := by
  unfold _make_request
  rcases env.transport tr.length <;> simp

/-- C3 counterexample: with a saturated rate limiter (60 requests in the
window), `read_file` still issues its network request and raises no
`RateLimitError` — it never consults the limiter. -/
theorem C3_counterexample_read_file_skips_limiter :
    ((stSat.rate_limiter.can_make_request envOk.now).1 = false) ∧
    (read_file envOk stSat [] "sb" "/tmp/x").1 = Except.ok "" ∧
    (read_file envOk stSat [] "sb" "/tmp/x").2.2.length = 1 := by
  exact ⟨by decide, by rfl, by rfl⟩

/-- C3 amended: only `create_sandbox`, `run_code`, and `run_terminal`
consult the `RateLimiter` before calling the transport; each of them
raises `RateLimitError` and issues no request when the limiter rejects.
The remaining network operations (`get_sandbox_status`, `read_file`,
`write_file`, `delete_file`, `list_files`, `create_code_context`,
`delete_sandbox`, and the template operations) call the transport
without consulting the limiter: even when it would reject, each leaves
the limiter untouched and issues its request. -/
theorem C3_amended_only_three_ops_rate_limited (env : Env) (st : SDKState)
    (tr : List HttpRequest) (options template : RawData)
    (sandbox_id path content dir_path command template_id : String)
    (code : Option String) (opts : RunOpts) (language cwd : Option String)
    (rtms : Option Int) (page page_size : Int) (create_parents : Bool)
    (sb : ServerSandbox)
    (hrej : (st.rate_limiter.can_make_request env.now).1 = false)
    (hsb : st.active_sandboxes.lookup sandbox_id = some sb) :
    (create_sandbox env st tr options).1
        = Except.error (SDKError.rateLimitError
            ((st.rate_limiter.can_make_request env.now).2.get_retry_after env.now)) ∧
    (create_sandbox env st tr options).2.2 = tr ∧
    (run_code env st tr sandbox_id code opts).1
        = Except.error (SDKError.rateLimitError
            ((st.rate_limiter.can_make_request env.now).2.get_retry_after env.now)) ∧
    (run_code env st tr sandbox_id code opts).2.2 = tr ∧
    (run_terminal env st tr sandbox_id command opts).1
        = Except.error (SDKError.rateLimitError
            ((st.rate_limiter.can_make_request env.now).2.get_retry_after env.now)) ∧
    (run_terminal env st tr sandbox_id command opts).2.2 = tr ∧
    ((get_sandbox_status env st tr sandbox_id).2.1.rate_limiter = st.rate_limiter ∧
     (get_sandbox_status env st tr sandbox_id).2.2.length = tr.length + 1) ∧
    ((read_file env st tr sandbox_id path).2.1.rate_limiter = st.rate_limiter ∧
     (read_file env st tr sandbox_id path).2.2.length = tr.length + 1) ∧
    ((write_file env st tr sandbox_id path content create_parents).2.1.rate_limiter
        = st.rate_limiter ∧
     (write_file env st tr sandbox_id path content create_parents).2.2.length
        = tr.length + 1) ∧
    ((delete_file env st tr sandbox_id path).2.1.rate_limiter = st.rate_limiter ∧
     (delete_file env st tr sandbox_id path).2.2.length = tr.length + 1) ∧
    ((list_files env st tr sandbox_id dir_path).2.1.rate_limiter = st.rate_limiter ∧
     (list_files env st tr sandbox_id dir_path).2.2.length = tr.length + 1) ∧
    ((create_code_context env st tr sandbox_id language cwd rtms).2.1.rate_limiter
        = st.rate_limiter ∧
     (create_code_context env st tr sandbox_id language cwd rtms).2.2.length
        = tr.length + 1) ∧
    ((delete_sandbox env st tr sandbox_id).2.1.rate_limiter = st.rate_limiter ∧
     (delete_sandbox env st tr sandbox_id).2.2.length = tr.length + 1) ∧
    ((get_templates env st tr page page_size).2.1.rate_limiter = st.rate_limiter ∧
     (get_templates env st tr page page_size).2.2.length = tr.length + 1) ∧
    ((get_template env st tr template_id).2.1.rate_limiter = st.rate_limiter ∧
     (get_template env st tr template_id).2.2.length = tr.length + 1) ∧
    ((create_template env st tr template).2.1.rate_limiter = st.rate_limiter ∧
     (create_template env st tr template).2.2.length = tr.length + 1) := by
  have hcheck : _check_rate_limit env st =
      (Except.error (SDKError.rateLimitError
         ((st.rate_limiter.can_make_request env.now).2.get_retry_after env.now)),
       { st with rate_limiter := (st.rate_limiter.can_make_request env.now).2 }) := by
    simp [_check_rate_limit, hrej]
  refine ⟨?_, ?_, ?_, ?_, ?_, ?_, ?_, ?_, ?_, ?_, ?_, ?_, ?_, ?_, ?_, ?_⟩
  · simp [create_sandbox, hcheck]
  · simp [create_sandbox, hcheck]
  · simp [run_code, hcheck]
  · simp [run_code, hcheck]
  · simp [run_terminal, hcheck]
  · simp [run_terminal, hcheck]
  · rcases h : env.transport tr.length <;>
      simp [get_sandbox_status, _make_request, hsb, h]
  · rcases h : env.transport tr.length <;>
      simp [read_file, _make_request, hsb, h]
  · rcases h : env.transport tr.length <;>
      simp [write_file, _make_request, hsb, h]
  · rcases h : env.transport tr.length <;>
      simp [delete_file, _make_request, hsb, h]
  · rcases h : env.transport tr.length <;>
      simp [list_files, _make_request, hsb, h]
  · cases h : env.transport tr.length with
    | success b el =>
        cases hcid : b.ctx_id <;>
          simp [create_code_context, _make_request, hsb, h, hcid]
    | timedOut el =>
        simp [create_code_context, _make_request, hsb, h]
    | requestError bj sc ex el =>
        simp [create_code_context, _make_request, hsb, h]
  · rcases h : env.transport tr.length <;>
      simp [delete_sandbox, _make_request, h]
  · rcases h : env.transport tr.length <;>
      simp [get_templates, _make_request, h]
  · rcases h : env.transport tr.length <;>
      simp [get_template, _make_request, h]
  · rcases h : env.transport tr.length <;>
      simp [create_template, _make_request, h]

/-- C3 witness: on the saturated state, `run_code` is refused with
`RateLimitError` and no request, while `read_file` proceeds and leaves
the limiter untouched. -/
theorem C3_amended_only_three_ops_rate_limited_witness :
    ((stSat.rate_limiter.can_make_request envOk.now).1 = false) ∧
    (stSat.active_sandboxes.lookup "sb" = some { id := "sb" }) ∧
    ((run_code envOk stSat [] "sb" none {}).1
        = Except.error (SDKError.rateLimitError
            ((stSat.rate_limiter.can_make_request envOk.now).2.get_retry_after
              envOk.now))) ∧
    ((run_code envOk stSat [] "sb" none {}).2.2 = ([] : List HttpRequest)) ∧
    ((read_file envOk stSat [] "sb" "/tmp/x").2.1.rate_limiter
        = stSat.rate_limiter) ∧
    ((read_file envOk stSat [] "sb" "/tmp/x").2.2.length = 0 + 1) := by
  have h := C3_amended_only_three_ops_rate_limited envOk stSat [] [] []
    "sb" "/tmp/x" "c" "." "cmd" "tid" none {} none none none 1 10 true
    { id := "sb" } (by decide) (by decide)
  exact ⟨by decide, by decide, h.2.2.1, h.2.2.2.1,
    (h.2.2.2.2.2.2.2.1).1, (h.2.2.2.2.2.2.2.1).2⟩

/-- A three-part string append with a non-empty head is non-empty. -/
theorem string_append3_ne (a x b : String) (ha : a.length ≠ 0) :
    a ++ x ++ b ≠ "" := by
  intro hcontra
  have h1 : (a ++ x ++ b).length = a.length + x.length + b.length := by
    simp [String.length_append]
  rw [hcontra] at h1
  have h0 : ("" : String).length = 0 := rfl
  rw [h0] at h1
  omega

/-- The handler of lines 410-416 always raises `SandboxError (str e)`. -/
theorem requestExceptionError_eq_excStr (bj : Option ErrorBody) (status : Int)
    (excs : String) : requestExceptionError bj status excs
      = SDKError.sandboxError excs := by
  cases bj <;> rfl

/-- Every error `_make_request` raises carries a non-empty message, as
long as the transport's exception rendering is non-empty. -/
theorem _make_request_error_msg (env : Env) (st : SDKState)
    (tr : List HttpRequest) (m ep : String) (p : Option Payload)
    (t : Option Int) (e : SDKError)
    (hT : ∀ n, TransportOutcome.excNonEmpty (env.transport n))
    (he : (_make_request env st tr m ep p t).1 = Except.error e) :
    e.message ≠ "" := by
  unfold _make_request at he
  cases h : env.transport tr.length with
  | success b el => rw [h] at he; simp at he
  | timedOut el =>
      rw [h] at he
      simp only [Except.error.injEq] at he
      rw [← he]
      exact string_append3_ne _ _ _ (by decide)
  | requestError bj sc ex el =>
      rw [h] at he
      simp only [Except.error.injEq] at he
      have hex := hT tr.length
      rw [h] at hex
      rw [← he, requestExceptionError_eq_excStr]
      exact hex

/-- Every error `run_code` raises carries a non-empty message. -/
theorem run_code_error_msg (env : Env) (st : SDKState) (tr : List HttpRequest)
    (sid : String) (code : Option String) (opts : RunOpts) (e : SDKError)
    (hT : ∀ n, TransportOutcome.excNonEmpty (env.transport n))
    (he : (run_code env st tr sid code opts).1 = Except.error e) :
    e.message ≠ "" := by
  unfold run_code at he
  rcases hc : _check_rate_limit env st with ⟨cres, st1⟩
  rw [hc] at he
  cases cres with
  | error e1 =>
      simp only [Except.error.injEq] at he
      have he1 : e1 = SDKError.rateLimitError
          ((st.rate_limiter.can_make_request env.now).2.get_retry_after env.now) := by
        unfold _check_rate_limit at hc
        by_cases hcan : (st.rate_limiter.can_make_request env.now).1
        · rw [if_pos hcan] at hc; simp at hc
        · rw [if_neg hcan] at hc
          have := congrArg Prod.fst hc
          simp at this
          exact this.symm
      rw [← he, he1]
      exact string_append3_ne _ _ _ (by decide)
  | ok u =>
      dsimp only at he
      cases hl : st1.active_sandboxes.lookup sid with
      | none =>
          rw [hl] at he
          simp only [Except.error.injEq] at he
          rw [← he]
          exact string_append3_ne _ _ _ (by decide)
      | some sb =>
          rw [hl] at he
          dsimp only at he
          rcases hmk : _make_request env st1 tr "POST"
              ("/api/sandboxes/" ++ sid ++ "/execute")
              (some (Payload.execute code sb.template_language opts.envs))
              opts.timeout_ms with ⟨mres, st2, tr2⟩
          rw [hmk] at he
          cases mres with
          | ok body => simp at he
          | error e2 =>
              simp only [Except.error.injEq] at he
              rw [← he]
              exact _make_request_error_msg env st1 tr "POST"
                ("/api/sandboxes/" ++ sid ++ "/execute")
                (some (Payload.execute code sb.template_language opts.envs))
                opts.timeout_ms e2 hT (by rw [hmk])

/-- The sequential batch loop produces one record per job, in order:
the id is copied, a failing `run_code` yields `success:false` with a
non-empty message without aborting the loop, a successful one yields
`success:true` with the decoded execution. -/
theorem batchLoop_forall₂ (env : Env) (sid : String) (opts : RunOpts)
    (hT : ∀ n, TransportOutcome.excNonEmpty (env.transport n)) :
    ∀ (jobs : List BatchJob) (st : SDKState) (tr : List HttpRequest),
      List.Forall₂ recordMatches jobs (batchLoop env sid opts jobs st tr).1 := by
  intro jobs
  induction jobs with
  | nil => intro st tr; exact List.Forall₂.nil
  | cons job rest ih =>
      intro st tr
      simp only [batchLoop]
      rcases hr : (run_code env st tr sid job.code
          { opts with timeout_ms := job.timeout }).1 with e | ex
      · exact List.Forall₂.cons
          ⟨rfl, Or.inr ⟨rfl, rfl, e.message, rfl,
            run_code_error_msg env st tr sid job.code _ e hT hr⟩⟩ (ih _ _)
      · exact List.Forall₂.cons ⟨rfl, Or.inl ⟨rfl, rfl, ex, rfl⟩⟩ (ih _ _)

/-- C9: `execute_batch` processes its jobs sequentially and returns
exactly one record per job in order: a job whose `run_code` call raises
any exception produces `{job_id, success:false, error}` with a non-empty
error message without aborting the batch, and every other job produces
`{job_id, success:true, execution}`. -/
theorem C9_execute_batch_per_job (env : Env) (st : SDKState)
    (tr : List HttpRequest) (sandbox_id : String) (jobs : List BatchJob)
    (opts : RunOpts) (sb : ServerSandbox)
    (hT : ∀ n, TransportOutcome.excNonEmpty (env.transport n))
    (hsb : st.active_sandboxes.lookup sandbox_id = some sb) :
    (execute_batch env st tr sandbox_id jobs opts).1
        = Except.ok (batchLoop env sandbox_id opts jobs st tr).1 ∧
    List.Forall₂ recordMatches jobs (batchLoop env sandbox_id opts jobs st tr).1 ∧
    (batchLoop env sandbox_id opts jobs st tr).1.length = jobs.length := by
  refine ⟨by simp [execute_batch, hsb], batchLoop_forall₂ env sandbox_id opts hT jobs st tr, ?_⟩
  exact (batchLoop_forall₂ env sandbox_id opts hT jobs st tr).length_eq.symm

/-- C9 witness: three jobs against a transport failing exactly the
second request — three records, jobs 1 and 3 succeed, job 2 carries the
non-empty error. -/
theorem C9_execute_batch_per_job_witness :
    (∀ n, TransportOutcome.excNonEmpty (env3.transport n)) ∧
    (stSb.active_sandboxes.lookup "sb" = some { id := "sb" }) ∧
    List.Forall₂ recordMatches jobs3 (batchLoop env3 "sb" {} jobs3 stSb []).1 ∧
    (execute_batch env3 stSb [] "sb" jobs3 {}).1
      = Except.ok
          [{ job_id := some "j1", success := true, execution := some {} },
           { job_id := some "j2", success := false,
             error := some "Connection refused" },
           { job_id := some "j3", success := true, execution := some {} }] := by
  have hT3 : ∀ n, TransportOutcome.excNonEmpty (env3.transport n) := by
    intro n
    by_cases hn : n = 1
    · subst hn
      exact (by decide : ("Connection refused" : String) ≠ "")
    · have henv : env3.transport n = .success {} 2 := by simp [env3, hn]
      rw [henv]; trivial
  have h := C9_execute_batch_per_job env3 stSb [] "sb" jobs3 {} { id := "sb" }
    hT3 (by decide)
  exact ⟨hT3, by decide, h.2.1, by rfl⟩
